import Mathlib

/-!
Verification of the evidence-fusion / contextual-inference core of the
image-discerner repository (src/src/lambdas/inference_engine.py and
src/src/lambdas/aggregate.py), as a shallow embedding in Lean 4.

Modelling conventions:
- Python floats are modelled by exact rationals (ℚ); all the constants of the
  source (0.4, 0.3, 0.1, 0.95, 0.7, 0.5) are exactly representable.
- Python strings are modelled by Lean `String` / `List Char`; the ASCII
  fragments of `str.lower()` / `str.upper()` are modelled by per-character
  maps (the repository only manipulates ASCII data).
- The regular expressions used by the source all fall into a small fragment:
  character classes with counted repetition `{lo,hi}`, optional whitespace
  `\s?`, literal characters, and the word-boundary assertion `\b`.  A small
  executable matcher over this fragment models `re.search` / `re.findall` /
  `re.finditer` with Python's leftmost, greedy-with-backtracking,
  non-overlapping semantics.  The matcher is written with an explicit fuel
  argument so that it is structurally recursive and kernel-evaluable; every
  recursive step consumes either one input character or one token, so fuel
  `tokens + chars + 1` is sufficient.
-/

namespace ImageDiscerner

/-- Character test for the regex class `[A-Z]` (ASCII upper-case letter). -/
def isUpperAZ (c : Char) : Bool :=
  'A' ≤ c && c ≤ 'Z'

/-- Character test for the regex class `[a-z]` (ASCII lower-case letter). -/
def isLowerAZ (c : Char) : Bool :=
  'a' ≤ c && c ≤ 'z'

/-- Character test for the regex class `\d` (ASCII digit). -/
def isDigitCh (c : Char) : Bool :=
  '0' ≤ c && c ≤ '9'

/-- Character test for the regex class `\s` (ASCII whitespace, as matched by
Python `re`: space, tab, newline, carriage return, form feed, vertical tab). -/
def isWSCh (c : Char) : Bool :=
  c = ' ' || c = '\t' || c = '\n' || c = '\x0d' || c = '\x0c' || c = '\x0b'

/-- Character test for the regex class `[A-Z0-9]`. -/
def isUpperOrDigit (c : Char) : Bool :=
  isUpperAZ c || isDigitCh c

/-- Word character in the sense of the `\b` assertion (`[A-Za-z0-9_]`). -/
def isWordCh (c : Char) : Bool :=
  isUpperAZ c || isLowerAZ c || isDigitCh c || c = '_'

/-- ASCII model of Python `str.lower()` applied to one character. -/
def toLowerCh (c : Char) : Char :=
  if isUpperAZ c then Char.ofNat (c.toNat + 32) else c

/-- ASCII model of Python `str.upper()` applied to one character. -/
def toUpperCh (c : Char) : Char :=
  if isLowerAZ c then Char.ofNat (c.toNat - 32) else c

/-- Model of Python `text.lower()` as a character list. -/
def lowerData (s : String) : List Char :=
  s.data.map toLowerCh

/-- Model of Python `text.upper()` as a character list. -/
def upperData (s : String) : List Char :=
  s.data.map toUpperCh

/-- One token of the regex fragment used by the repository: either a counted
character class `cls p lo hi` (covering literals `lo = hi = 1`, `\d{n}`,
`[A-Z]{4}`, `\s?` as `lo = 0, hi = 1`, and ranges such as `{2,3}`), or the
word-boundary assertion `\b`. -/
inductive RTok where
  | cls (p : Char → Bool) (lo hi : Nat)
  | wb

/-- Word-boundary test between an optional previous character and an optional
next character, as in Python `re`'s `\b`. -/
def atBoundary (prev next : Option Char) : Bool :=
  (match prev with | none => false | some c => isWordCh c)
    != (match next with | none => false | some c => isWordCh c)

/-- Fuel-indexed matcher for a token list against the front of the input,
with Python's greedy-with-backtracking semantics.  `prev` is the character
immediately before the current position (for `\b`).  On success it returns
the matched characters and the remaining input.  Every recursive call
consumes one unit of fuel and shrinks either the input or the token list, so
`toks.length + s.length + 1` units of fuel always suffice. -/
def matchAtF : Nat → Option Char → List RTok → List Char → Option (List Char × List Char)
  | 0, _, _, _ => none
  | _ + 1, _, [], s => some ([], s)
  | fuel + 1, prev, RTok.wb :: ts, s =>
    if atBoundary prev s.head? then matchAtF fuel prev ts s else none
  | fuel + 1, prev, RTok.cls p lo hi :: ts, s =>
    match hi, s with
    | 0, _ => if lo = 0 then matchAtF fuel prev ts s else none
    | _ + 1, [] => if lo = 0 then matchAtF fuel prev ts [] else none
    | hi' + 1, c :: s' =>
      if p c then
        match matchAtF fuel (some c) (RTok.cls p (lo - 1) hi' :: ts) s' with
        | some (m, r) => some (c :: m, r)
        | none => if lo = 0 then matchAtF fuel prev ts (c :: s') else none
      else
        if lo = 0 then matchAtF fuel prev ts (c :: s') else none

/-- Matcher with the sufficient fuel filled in. -/
def matchAt (prev : Option Char) (ts : List RTok) (s : List Char) :
    Option (List Char × List Char) :=
  matchAtF (ts.length + s.length + 1) prev ts s

/-- Model of Python `re.search(pattern, s) is not None`: try the matcher at
every start position, keeping track of the previous character for `\b`. -/
def reSearchAux (ts : List RTok) : Option Char → List Char → Bool
  | prev, s =>
    (matchAt prev ts s).isSome ||
      match s with
      | [] => false
      | c :: r => reSearchAux ts (some c) r

/-- Model of `re.search` over a whole character list. -/
def reSearch (ts : List RTok) (s : List Char) : Bool :=
  reSearchAux ts none s

/-- Fuel-indexed model of Python `re.findall` / `re.finditer`: scan left to
right, emit each leftmost match and continue after its end (non-overlapping).
None of the repository's patterns can match the empty string; if one did we
would skip one character (the `m.isEmpty` branch) rather than loop. -/
def findAllF (ts : List RTok) : Nat → Option Char → List Char → List (List Char)
  | 0, _, _ => []
  | _ + 1, _, [] => []
  | fuel + 1, prev, c :: rest =>
    match matchAtF (ts.length + (c :: rest).length + 1) prev ts (c :: rest) with
    | some (m, r) =>
      if m.isEmpty then findAllF ts fuel (some c) rest
      else m :: findAllF ts fuel (some (m.getLastD c)) r
    | none => findAllF ts fuel (some c) rest

/-- Model of `re.findall(pattern, s)` (all patterns used here are group-free,
so `findall` returns the whole matches). -/
def findAll (ts : List RTok) (s : List Char) : List (List Char) :=
  findAllF ts (s.length + 1) none s

/-- Literal-string regex (e.g. `maersk`, `priority`, `usps\.com` — the escaped
dot is the literal dot character). -/
def litToks (s : String) : List RTok :=
  s.data.map fun c => RTok.cls (fun x => x = c) 1 1

/-- Declarative shape of a string matched by a token list: each class token
contributes between `lo` and `hi` characters of its class, word boundaries
contribute nothing.  This is what a successful run of the matcher guarantees
about the matched characters (it forgets positions and the rest of the
input). -/
def ToksMatch : List RTok → List Char → Prop
  | [], m => m = []
  | RTok.wb :: ts, m => ToksMatch ts m
  | RTok.cls p lo hi :: ts, m =>
    ∃ m1 m2, m = m1 ++ m2 ∧ (∀ c ∈ m1, p c = true) ∧ lo ≤ m1.length ∧
      m1.length ≤ hi ∧ ToksMatch ts m2

/-- Soundness of the matcher: whatever it reports as matched has the declared
token shape, at any fuel. -/
theorem toksMatch_of_matchAtF (fuel : Nat) :
    ∀ (prev : Option Char) (ts : List RTok) (s m r : List Char),
      matchAtF fuel prev ts s = some (m, r) → ToksMatch ts m := by
  induction fuel with
  | zero => intro prev ts s m r h; simp [matchAtF] at h
  | succ fuel ih =>
    intro prev ts s m r h
    match ts with
    | [] =>
      simp only [matchAtF, Option.some.injEq, Prod.mk.injEq] at h
      simp only [ToksMatch]
      exact h.1.symm
    | RTok.wb :: ts' =>
      by_cases hb : atBoundary prev s.head? = true
      · simp only [matchAtF, hb, if_true] at h
        simp only [ToksMatch]
        exact ih prev ts' s m r h
      · simp [matchAtF, hb] at h
    | RTok.cls p lo hi :: ts' =>
      cases hi with
      | zero =>
        by_cases hlo : lo = 0
        · simp only [matchAtF, hlo, if_true] at h
          exact ⟨[], m, by simp, by simp, by simp [hlo], by simp, ih prev ts' s m r h⟩
        · simp [matchAtF, hlo] at h
      | succ hi' =>
        cases s with
        | nil =>
          by_cases hlo : lo = 0
          · simp only [matchAtF, hlo, if_true] at h
            exact ⟨[], m, by simp, by simp, by simp [hlo], by simp, ih prev ts' [] m r h⟩
          · simp [matchAtF, hlo] at h
        | cons c s' =>
          by_cases hpc : p c = true
          · cases hmm : matchAtF fuel (some c) (RTok.cls p (lo - 1) hi' :: ts') s' with
            | some pr =>
              obtain ⟨m', r'⟩ := pr
              simp only [matchAtF, hpc, if_true, hmm, Option.some.injEq,
                Prod.mk.injEq] at h
              obtain ⟨hm1, hm2⟩ := h
              obtain ⟨m1, m2, hsplit, hall, hlo1, hhi1, hrest⟩ :=
                ih (some c) (RTok.cls p (lo - 1) hi' :: ts') s' m' r' hmm
              refine ⟨c :: m1, m2, ?_, ?_, ?_, ?_, hrest⟩
              · simp [← hm1, hsplit]
              · intro x hx
                rcases List.mem_cons.mp hx with hx | hx
                · exact hx ▸ hpc
                · exact hall x hx
              · simp only [List.length_cons]; omega
              · simp only [List.length_cons]; omega
            | none =>
              by_cases hlo : lo = 0
              · subst hlo
                simp only [matchAtF, hpc, if_true, hmm] at h
                exact ⟨[], m, by simp, by simp, by simp, by simp,
                  ih prev ts' (c :: s') m r h⟩
              · simp [matchAtF, hpc, hmm, hlo] at h
          · by_cases hlo : lo = 0
            · simp only [matchAtF, if_neg hpc, hlo, if_true] at h
              exact ⟨[], m, by simp, by simp, by simp [hlo], by simp,
                ih prev ts' (c :: s') m r h⟩
            · simp [matchAtF, hpc, hlo] at h

/-- Soundness of the scanner: every string it collects has the token shape. -/
theorem toksMatch_of_mem_findAllF (ts : List RTok) (fuel : Nat) :
    ∀ (prev : Option Char) (s m : List Char),
      m ∈ findAllF ts fuel prev s → ToksMatch ts m := by
  induction fuel with
  | zero => intro prev s m h; simp [findAllF] at h
  | succ fuel ih =>
    intro prev s m h
    match s with
    | [] => simp [findAllF] at h
    | c :: rest =>
      cases hm : matchAtF (ts.length + (c :: rest).length + 1) prev ts (c :: rest) with
      | some pr =>
        obtain ⟨m', r⟩ := pr
        by_cases he : m'.isEmpty
        · simp only [findAllF, hm, he, if_true] at h
          exact ih (some c) rest m h
        · simp only [findAllF, hm, if_neg he] at h
          rcases List.mem_cons.mp h with h | h
          · exact h ▸ toksMatch_of_matchAtF _ prev ts (c :: rest) m' r hm
          · exact ih (some (m'.getLastD c)) r m h
      | none =>
        simp only [findAllF, hm] at h
        exact ih (some c) rest m h

/-- Membership transfer for `findAll`. -/
theorem toksMatch_of_mem_findAll (ts : List RTok) (s m : List Char)
    (h : m ∈ findAll ts s) : ToksMatch ts m :=
  toksMatch_of_mem_findAllF ts (s.length + 1) none s m h

/-- Model of Python `s.lower()` as a `String`. -/
def strLower (s : String) : String :=
  String.mk (lowerData s)

/-- Regex token `\d{n}`. -/
def dTok (n : Nat) : RTok :=
  RTok.cls isDigitCh n n

/-- Regex token `\s?`. -/
def wsOpt : RTok :=
  RTok.cls isWSCh 0 1

/-- Literal regex wrapped in word boundaries, e.g. `\bups\b`. -/
def wbWrap (s : String) : List RTok :=
  [RTok.wb] ++ litToks s ++ [RTok.wb]

/-- One visually-detected item, as produced by the classification branch.
Python represents these as dicts; the `.get` defaults used by the source
(`''`/`'unknown'` for missing strings, `0` for missing confidence) are
modelled by the fields being total. -/
structure Classification where
  category : String
  subcategory : String
  confidence : ℚ
  brand : Option String := none

/-- One OCR fragment.  The inference engine receives these but never reads
them (only the concatenated `extracted_text` is used). -/
structure TextBlock where
  text : String
  confidence : ℚ

/-- The `text_analysis` dict consumed by the inference engine: the engine
reads `text_analysis.get('extracted_text', '')` and
`text_analysis.get('text_blocks', [])`. -/
structure TextAnalysis where
  extracted_text : String := ""
  text_blocks : List TextBlock := []

/-- One entry of the `VEHICLE_PATTERNS` table.  Each text pattern carries its
source text (used by the evidence tags) together with its token form. -/
structure PatternConfig where
  visual_requirements : List String
  text_patterns : List (String × List RTok)
  context_clues : List String
  confidence_base : ℚ

/-- Token form of the scorer's container-ID regex `[A-Z]{4}\s?\d{6}\s?\d`
(the `shipping_container` text pattern; no word boundaries here, unlike the
extraction regex). -/
def containerScorerToks : List RTok :=
  [RTok.cls isUpperAZ 4 4, wsOpt, dTok 6, wsOpt, dTok 1]

/-- The `postal_delivery` entry of `VEHICLE_PATTERNS`. -/
def postalDeliveryConfig : PatternConfig :=
  { visual_requirements := ["van", "truck", "car"]
    text_patterns :=
      [("usps\\.com", litToks "usps.com"),
       ("\\d\x7b7\x7d", [dTok 7]),
       ("priority", litToks "priority"),
       ("express", litToks "express"),
       ("mail", litToks "mail")]
    context_clues := ["parking_signs", "residential_area"]
    confidence_base := 4/5 }

/-- The `commercial_delivery` entry of `VEHICLE_PATTERNS`. -/
def commercialDeliveryConfig : PatternConfig :=
  { visual_requirements := ["truck", "van"]
    text_patterns :=
      [("fedex", litToks "fedex"),
       ("ups", litToks "ups"),
       ("amazon", litToks "amazon"),
       ("dhl", litToks "dhl"),
       ("\\d\x7b4\x7d-\\d\x7b4\x7d",
        [dTok 4, RTok.cls (fun c => c = '-') 1 1, dTok 4]),
       ("delivery", litToks "delivery")]
    context_clues := ["commercial_area"]
    confidence_base := 7/10 }

/-- The `shipping_container` entry of `VEHICLE_PATTERNS`. -/
def shippingContainerConfig : PatternConfig :=
  { visual_requirements := ["container", "truck"]
    text_patterns :=
      [("[A-Z]\x7b4\x7d\\s?\\d\x7b6\x7d\\s?\\d", containerScorerToks),
       ("maersk", litToks "maersk"),
       ("evergreen", litToks "evergreen"),
       ("cosco", litToks "cosco"),
       ("msc", litToks "msc")]
    context_clues := ["port", "industrial"]
    confidence_base := 9/10 }

/-- The `emergency_vehicle` entry of `VEHICLE_PATTERNS`. -/
def emergencyVehicleConfig : PatternConfig :=
  { visual_requirements := ["car", "truck", "van"]
    text_patterns :=
      [("police", litToks "police"),
       ("fire", litToks "fire"),
       ("ambulance", litToks "ambulance"),
       ("ems", litToks "ems"),
       ("sheriff", litToks "sheriff"),
       ("\\d\x7b3\x7d", [dTok 3])]
    context_clues := ["emergency_lights", "sirens"]
    confidence_base := 17/20 }

/-- The static four-pattern table `VEHICLE_PATTERNS`, in declaration order
(Python dict iteration order is insertion order). -/
def VEHICLE_PATTERNS : List (String × PatternConfig) :=
  [("postal_delivery", postalDeliveryConfig),
   ("commercial_delivery", commercialDeliveryConfig),
   ("shipping_container", shippingContainerConfig),
   ("emergency_vehicle", emergencyVehicleConfig)]

/-- Model of `extract_license_plates_with_jurisdiction`: three plate regexes
run by `re.findall` over the upper-cased text; matches get internal spaces
removed and the fixed `unknown` jurisdiction. -/
def extract_license_plates_with_jurisdiction (extracted_text : String) : List String :=
  let patterns : List (List RTok) :=
    [[RTok.wb, RTok.cls isUpperOrDigit 2 3, wsOpt, RTok.cls isUpperOrDigit 3 4, RTok.wb],
     [RTok.wb, RTok.cls isUpperAZ 3 3, wsOpt, RTok.cls isDigitCh 3 4, RTok.wb],
     [RTok.wb, dTok 3, wsOpt, RTok.cls isUpperAZ 3 3, RTok.wb]]
  patterns.flatMap fun pat =>
    (findAll pat (upperData extracted_text)).map fun m =>
      "license_plate:unknown:" ++ String.mk (m.filter (fun c => c ≠ ' '))

/-- Model of `extract_fleet_ids`: standalone 7-digit runs are matched on the
raw text (`finditer` without upper-casing), the remaining two fleet regexes
by `re.findall` over the upper-cased text. -/
def extract_fleet_ids (extracted_text : String) : List String :=
  let seven :=
    (findAll [RTok.wb, dTok 7, RTok.wb] extracted_text.data).map fun m =>
      "fleet:" ++ String.mk m
  let fleet_patterns : List (List RTok) :=
    [[RTok.wb, dTok 4, RTok.cls (fun c => c = '-') 1 1, dTok 4, RTok.wb],
     [RTok.wb, RTok.cls isUpperAZ 2 2, RTok.cls isDigitCh 4 6, RTok.wb]]
  seven ++
    (fleet_patterns.flatMap fun pat =>
      (findAll pat (upperData extracted_text)).map fun m => "fleet:" ++ String.mk m)

/-- Token form of the container-ID extraction regex
`\b[A-Z]{4}\s?\d{6}\s?\d\b`. -/
def containerIdToks : List RTok :=
  [RTok.wb, RTok.cls isUpperAZ 4 4, wsOpt, dTok 6, wsOpt, dTok 1, RTok.wb]

/-- Carrier letter codes that disqualify a container-ID match. -/
def carrierCodes : List String :=
  ["USPS", "FEDX", "UPSX"]

/-- Model of `extract_container_ids`: `finditer` of the container regex over
the upper-cased text; each match has its spaces removed and is skipped when
its cleaned form starts with one of the known carrier codes. -/
def extract_container_ids (extracted_text : String) : List String :=
  (findAll containerIdToks (upperData extracted_text)).filterMap fun m =>
    let clean := m.filter (fun c => c ≠ ' ')
    if carrierCodes.any (fun op => op.data.isPrefixOf clean) then none
    else some ("container_id:" ++ String.mk clean)

/-- Model of `extract_structured_identifiers`: plates, then fleet ids, then
container ids (`text_blocks` is accepted and ignored, as in the source). -/
def extract_structured_identifiers (text_blocks : List TextBlock)
    (extracted_text : String) : List String :=
  extract_license_plates_with_jurisdiction extracted_text ++
    extract_fleet_ids extracted_text ++
    extract_container_ids extracted_text

/-- Model of `calculate_pattern_match_score`.  Visual evidence adds
`confidence * 0.4` per classification whose lower-cased subcategory is in
`visual_requirements`; no visual match returns 0.0 immediately; each text
pattern that `re.search`-matches the lower-cased text adds 0.3; more than one
text match adds a flat 0.1; the total is divided by the evidence count and
clamped to 1.0. -/
def calculate_pattern_match_score (pattern_config : PatternConfig)
    (classifications : List Classification) (extracted_text : String)
    (text_blocks : List TextBlock) : ℚ :=
  let visual := classifications.filter fun c =>
    pattern_config.visual_requirements.contains (strLower c.subcategory)
  let visual_matches := visual.length
  let visualScore := (visual.map fun c => c.confidence * (2/5)).sum
  if visual_matches = 0 then 0
  else
    let text_lower := lowerData extracted_text
    let text_matches :=
      (pattern_config.text_patterns.filter fun p => reSearch p.2 text_lower).length
    let score := visualScore + (3/10) * (text_matches : ℚ) +
      (if 1 < text_matches then (1/10 : ℚ) else 0)
    let evidence_count := visual_matches + text_matches
    min (score / (evidence_count : ℚ)) 1

/-- One contextual inference, as built by `infer_vehicle_context`. -/
structure Inference where
  vehicle_type : String
  confidence : ℚ
  evidence : List String
  structured_identifiers : List String
  description : String

/-- Model of Python `s.startswith(pre)`. -/
def startsWithStr (s pre : String) : Bool :=
  pre.data.isPrefixOf s.data

/-- Identifier relevance filter of `infer_vehicle_context` (the
`elif`-chain): fleet ids attach only to `postal_delivery`, container ids only
to `shipping_container`, license plates to every pattern. -/
def relevantIdentifier (vehicle_type : String) (ident : String) : Bool :=
  if vehicle_type = "postal_delivery" && startsWithStr ident "fleet:" then true
  else if vehicle_type = "shipping_container" && startsWithStr ident "container_id:" then true
  else startsWithStr ident "license_plate:"

/-- Helper for `lastColonPart`: the characters after the last colon. -/
def lastSegAux (cur : List Char) : List Char → List Char
  | [] => cur.reverse
  | ':' :: rest => lastSegAux [] rest
  | c :: rest => lastSegAux (c :: cur) rest

/-- Last `:`-separated component of an identifier (`id.split(':')[-1]`). -/
def lastColonPart (s : String) : String :=
  String.mk (lastSegAux [] s.data)

/-- Model of `generate_description`. -/
def generate_description (vehicle_type : String) (identifiers : List String) : String :=
  let base_desc :=
    match vehicle_type with
    | "postal_delivery" => "Postal delivery vehicle"
    | "commercial_delivery" => "Commercial delivery vehicle"
    | "shipping_container" => "Shipping container"
    | "emergency_vehicle" => "Emergency vehicle"
    | _ => vehicle_type ++ " vehicle"
  if identifiers.isEmpty then base_desc
  else
    let fleet_ids :=
      (identifiers.filter fun i => startsWithStr i "fleet:").map lastColonPart
    let container_ids :=
      (identifiers.filter fun i => startsWithStr i "container_id:").map lastColonPart
    let license_plates :=
      (identifiers.filter fun i => startsWithStr i "license_plate:").map lastColonPart
    if ¬fleet_ids.isEmpty then
      if fleet_ids.length = 1 then
        base_desc ++ " with fleet ID " ++ fleet_ids.headD ""
      else
        base_desc ++ " with fleet IDs " ++ String.intercalate ", " fleet_ids
    else if ¬container_ids.isEmpty then
      base_desc ++ " " ++ container_ids.headD ""
    else if ¬license_plates.isEmpty then
      base_desc ++ " with license plate " ++ license_plates.headD ""
    else base_desc

/-- The inference built for one qualifying pattern inside
`infer_vehicle_context` (the body of the `match_score > 0.3` branch). -/
def buildInference (pr : String × PatternConfig)
    (classifications : List Classification) (extracted_text : String)
    (text_blocks : List TextBlock) (structured_identifiers : List String) :
    Inference :=
  let match_score :=
    calculate_pattern_match_score pr.2 classifications extracted_text text_blocks
  let relevant_identifiers := structured_identifiers.filter (relevantIdentifier pr.1)
  { vehicle_type := pr.1
    confidence := min (match_score * pr.2.confidence_base) (19/20)
    evidence :=
      ((classifications.filter fun c =>
          pr.2.visual_requirements.contains (strLower c.subcategory)).map fun c =>
            "detected_" ++ strLower c.subcategory) ++
        ((pr.2.text_patterns.filter fun p =>
            reSearch p.2 (lowerData extracted_text)).map fun p =>
              "text_pattern_" ++ p.1)
    structured_identifiers := relevant_identifiers
    description := generate_description pr.1 relevant_identifiers }

/-- One step of a stable descending insertion sort on confidence: the new
element (earlier in the input) passes over exactly the elements with strictly
greater confidence, so equal-confidence elements keep their input order. -/
def insertByConfDesc (x : Inference) : List Inference → List Inference
  | [] => [x]
  | y :: ys =>
    if x.confidence < y.confidence then y :: insertByConfDesc x ys
    else x :: y :: ys

/-- Model of Python's stable `list.sort(key=confidence, reverse=True)`: the
unique permutation that is sorted by confidence non-increasing and keeps the
input order of equal-confidence elements. -/
def sortByConfDesc (l : List Inference) : List Inference :=
  l.foldr insertByConfDesc []

/-- Model of `infer_vehicle_context`: score each of the four patterns in
declaration order, keep those with score strictly above 0.3, build their
inference records, and sort by confidence descending (stable). -/
def infer_vehicle_context (classifications : List Classification)
    (text_analysis : TextAnalysis) : List Inference :=
  let extracted_text := text_analysis.extracted_text
  let text_blocks := text_analysis.text_blocks
  let structured_identifiers :=
    extract_structured_identifiers text_blocks extracted_text
  sortByConfDesc
    ((VEHICLE_PATTERNS.filter fun pr =>
        decide ((3 : ℚ)/10 <
          calculate_pattern_match_score pr.2 classifications extracted_text
            text_blocks)).map fun pr =>
      buildInference pr classifications extracted_text text_blocks
        structured_identifiers)

/-- The fixed operator table of `extract_operator_from_text`, in declaration
order. -/
def operators : List (String × List (List RTok)) :=
  [("UPS", [wbWrap "ups", litToks "united parcel"]),
   ("FedEx", [wbWrap "fedex", litToks "federal express"]),
   ("USPS", [wbWrap "usps", litToks "united states postal", litToks "us postal",
             litToks "usps.com"]),
   ("Amazon", [wbWrap "amazon", litToks "prime"]),
   ("DHL", [wbWrap "dhl"]),
   ("Maersk", [wbWrap "maersk"]),
   ("Evergreen", [wbWrap "evergreen"]),
   ("COSCO", [wbWrap "cosco"]),
   ("MSC", [wbWrap "msc"]),
   ("Police", [wbWrap "police", wbWrap "pd", litToks "sheriff"]),
   ("Fire", [wbWrap "fire", wbWrap "fd"]),
   ("Ambulance", [wbWrap "ambulance", wbWrap "ems"])]

/-- Model of `extract_operator_from_text`: first operator (in table order)
with a pattern matching the lower-cased text. -/
def extract_operator_from_text (extracted_text : String) : Option String :=
  let text_lower := lowerData extracted_text
  operators.findSome? fun pr =>
    if pr.2.any (fun pat => reSearch pat text_lower) then some pr.1 else none

/-- One resolved entity.  The source also carries an always-empty
`properties` dict, omitted here. -/
structure Entity where
  type : String
  operator : Option String
  identifiers : List String
  confidence : ℚ

/-- The vehicle-type → entity-type table of `determine_entities`
(`type_mapping.get(vehicle_type, 'unknown')`). -/
def type_mapping (vehicle_type : String) : String :=
  match vehicle_type with
  | "postal_delivery" => "commercial_vehicle:van"
  | "commercial_delivery" => "commercial_vehicle:van"
  | "shipping_container" => "cargo_container"
  | "emergency_vehicle" => "emergency_vehicle:response"
  | _ => "unknown"

/-- Python `max(classifications, key=confidence)` keeps the first maximal
element: replace the running best only on strictly greater confidence. -/
def maxByConfFirst (c : Classification) (cs : List Classification) : Classification :=
  cs.foldl (fun best x => if best.confidence < x.confidence then x else best) c

/-- The entity built from one qualifying inference inside
`determine_entities` (the body of the `confidence > 0.3` loop). -/
def inferenceEntity (extracted_text : String) (inference : Inference) :
    Option Entity :=
  if (3 : ℚ)/10 < inference.confidence then
    some { type := type_mapping inference.vehicle_type
           operator := extract_operator_from_text extracted_text
           identifiers := inference.structured_identifiers
           confidence := inference.confidence }
  else none

/-- The fallback branch of `determine_entities`: one entity from the
highest-confidence classification (first on ties), or nothing when there are
no classifications. -/
def classificationFallback (classifications : List Classification)
    (extracted_text : String) (structured_identifiers : List String) :
    List Entity :=
  match classifications with
  | [] => []
  | c :: cs =>
    let best := maxByConfFirst c cs
    let entity_type :=
      if best.category = "vehicle" then
        if best.subcategory = "van" ∨ best.subcategory = "truck" then
          "commercial_vehicle:van"
        else "commercial_vehicle:" ++ best.subcategory
      else if best.category = "container" then "cargo_container"
      else "unknown"
    [{ type := entity_type
       operator := extract_operator_from_text extracted_text
       identifiers := structured_identifiers
       confidence := best.confidence }]

/-- Model of `determine_entities`: entities from qualifying inferences
(confidence strictly above 0.3), else a fallback entity from the
highest-confidence classification, else one synthetic unknown entity.
The `if contextual_inferences:` guard of the source is absorbed by the
filter (an empty list yields no entities either way). -/
def determine_entities (classifications : List Classification)
    (text_analysis : TextAnalysis) (contextual_inferences : List Inference) :
    List Entity :=
  let extracted_text := text_analysis.extracted_text
  let structured_identifiers :=
    extract_structured_identifiers text_analysis.text_blocks extracted_text
  let entities := contextual_inferences.filterMap (inferenceEntity extracted_text)
  let entities :=
    if entities.isEmpty then
      classificationFallback classifications extracted_text structured_identifiers
    else entities
  if entities.isEmpty then
    [{ type := "unknown", operator := none,
       identifiers := structured_identifiers, confidence := 0 }]
  else entities

/-- Metadata sub-dict of a branch result; every read in the source goes
through `.get(..., default)`, modelled by `Option` fields. -/
structure ProcessingMetadata where
  api_provider : Option String := none
  text_confidence : Option ℚ := none
  processing_time_ms : Option Int := none

/-- The `structured_identifiers` dict produced by the text branch. -/
structure StructuredIdentifiersDict where
  container_ids : List String := []
  fleet_numbers : List String := []
  license_plates : List String := []

/-- A branch result body, as read by `aggregate.handler`.  The two
distinguishing keys (`classifications`, `extracted_text`) are `Option`s
because their presence drives branch detection; the remaining fields model
the corresponding `.get(..., default)` reads. -/
structure BranchBody where
  classifications : Option (List Classification) := none
  extracted_text : Option String := none
  detected_objects : List String := []
  confidence_scores : List (String × ℚ) := []
  structured_identifiers : Option StructuredIdentifiersDict := none
  text_blocks : Option (List TextBlock) := none
  processing_metadata : Option ProcessingMetadata := none
  image_key : Option String := none

/-- The value found under a result's `body` key: either a dict or something
on which `'classifications' in result_body` raises `TypeError`. -/
inductive BodyVal where
  | obj (b : BranchBody)
  | nonDict

/-- One element of the parallel-results list: either a dict (with an
optional `body` key) or something on which `.get` raises `AttributeError`. -/
inductive ParallelResult where
  | obj (body : Option BodyVal)
  | nonDict

/-- The value found under the event's `body` key when the event is a dict:
either a list of results or something on which `len` raises `TypeError`. -/
inductive EventBodyVal where
  | list (rs : List ParallelResult)
  | nonList

/-- The Lambda event: a list (Step Functions parallel output), a dict with an
optional `body` key, or something on which `.get` raises `AttributeError`. -/
inductive EventVal where
  | list (rs : List ParallelResult)
  | dict (body : Option EventBodyVal)
  | other

/-- One enhanced classification: the original classification possibly
annotated with identifier lists by the merge pass. -/
structure EnhancedClassification where
  base : Classification
  fleet_numbers : Option (List String) := none
  license_plates : Option (List String) := none
  container_ids : Option (List String) := none

/-- Model of the Python substring test `needle in hay` on strings (as
character lists). -/
def containsSub (needle : List Char) : List Char → Bool
  | [] => needle.isPrefixOf []
  | c :: t => needle.isPrefixOf (c :: t) || containsSub needle t

/-- Model of `merge_identifiers_with_classifications`: vehicles whose
lower-cased subcategory contains "truck" get fleet numbers and license
plates attached, containers get container ids. -/
def merge_identifiers_with_classifications (classifications : List Classification)
    (text_identifiers : StructuredIdentifiersDict) : List EnhancedClassification :=
  classifications.map fun c =>
    if c.category = "vehicle" then
      if containsSub ("truck".data) (lowerData c.subcategory) then
        { base := c
          fleet_numbers := some text_identifiers.fleet_numbers
          license_plates := some text_identifiers.license_plates }
      else { base := c }
    else if c.category = "container" then
      { base := c, container_ids := some text_identifiers.container_ids }
    else { base := c }

/-- Model of `calculate_overall_confidence`: weighted combination of the
average classification confidence (weight 0.7) and the text confidence
(weight 0.3), or `text_confidence * 0.5` when there are no classification
confidence scores. -/
def calculate_overall_confidence (classification_results text_results : BranchBody) : ℚ :=
  let classification_confidence := classification_results.confidence_scores
  let text_confidence :=
    ((text_results.processing_metadata.getD {}).text_confidence).getD 0
  if ¬classification_confidence.isEmpty then
    ((classification_confidence.map Prod.snd).sum /
        (classification_confidence.length : ℚ)) * (7/10) +
      text_confidence * (3/10)
  else text_confidence * (1/2)

/-- Metadata block of the aggregated 200 response. -/
structure ResponseMetadata where
  total_processing_time_ms : Int
  classification_provider : Option String
  text_provider : Option String
  image_key : Option String

/-- Body of a handler response.  The source nests the 200 payload under
`image_classification` / `text_analysis` sub-dicts; the fields are modelled
flat.  The wall-clock `timestamp` field is I/O and is not modelled. -/
structure ResponseBody where
  analysis_complete : Option Bool := none
  error : Option String := none
  detected_items : Option (List EnhancedClassification) := none
  raw_classifications : Option (List Classification) := none
  detected_objects : Option (List String) := none
  extracted_text : Option String := none
  structured_identifiers : Option StructuredIdentifiersDict := none
  text_blocks : Option (List TextBlock) := none
  contextual_inferences : Option (List Inference) := none
  confidence_score : Option ℚ := none
  processing_metadata : Option ResponseMetadata := none

/-- A handler response: status code plus body. -/
structure Response where
  statusCode : Nat
  body : ResponseBody

/-- Python `a or b` on optional strings (`None` and `''` are falsy). -/
def pyOrStr (a b : Option String) : Option String :=
  match a with
  | some s => if s = "" then b else some s
  | none => b

/-- The 200 response assembled on the success path of `handler`. -/
def successResponse (classification_results text_results : BranchBody) : Response :=
  let cls := classification_results.classifications.getD []
  let sid := text_results.structured_identifiers.getD {}
  let cmeta := classification_results.processing_metadata.getD {}
  let tmeta := text_results.processing_metadata.getD {}
  { statusCode := 200
    body :=
      { analysis_complete := some true
        detected_items := some (merge_identifiers_with_classifications cls sid)
        raw_classifications := some cls
        detected_objects := some classification_results.detected_objects
        extracted_text := some (text_results.extracted_text.getD "")
        structured_identifiers := some sid
        text_blocks := some (text_results.text_blocks.getD [])
        contextual_inferences := some (infer_vehicle_context cls
          { extracted_text := text_results.extracted_text.getD ""
            text_blocks := text_results.text_blocks.getD [] })
        confidence_score :=
          some (calculate_overall_confidence classification_results text_results)
        processing_metadata := some
          { total_processing_time_ms :=
              cmeta.processing_time_ms.getD 0 + tmeta.processing_time_ms.getD 0
            classification_provider := cmeta.api_provider
            text_provider := tmeta.api_provider
            image_key :=
              pyOrStr classification_results.image_key text_results.image_key } } }

/-- A 400 validation response (`{'statusCode': 400, 'body': {'error': msg}}`). -/
def resp400 (msg : String) : Response :=
  { statusCode := 400, body := { error := some msg } }

/-- The 500 response built by the `except` clause of `handler`. -/
def resp500 (msg : String) : Response :=
  { statusCode := 500
    body := { error := some ("Result aggregation failed: " ++ msg)
              analysis_complete := some false } }

/-- Model of `event if isinstance(event, list) else event.get('body', [])`,
with the raising cases (`.get` on a non-dict, `len` of a non-list) as
errors. -/
def getParallelResults : EventVal → Except String (List ParallelResult)
  | EventVal.list rs => Except.ok rs
  | EventVal.dict none => Except.ok []
  | EventVal.dict (some (EventBodyVal.list rs)) => Except.ok rs
  | EventVal.dict (some EventBodyVal.nonList) =>
    Except.error "TypeError: object of this type has no len"
  | EventVal.other => Except.error "AttributeError: object has no attribute get"

/-- Model of `result.get('body', {})`. -/
def getResultBody : ParallelResult → Except String BodyVal
  | ParallelResult.obj none => Except.ok (BodyVal.obj {})
  | ParallelResult.obj (some v) => Except.ok v
  | ParallelResult.nonDict =>
    Except.error "AttributeError: object has no attribute get"

/-- The branch-detection loop of `handler`: a body containing
`classifications` becomes the classification result, else one containing
`extracted_text` becomes the text result (`classifications` has priority via
the `elif`); later results overwrite earlier ones. -/
def parseBranches (acc : Option BranchBody × Option BranchBody) :
    List ParallelResult → Except String (Option BranchBody × Option BranchBody)
  | [] => Except.ok acc
  | r :: rest =>
    match getResultBody r with
    | Except.error e => Except.error e
    | Except.ok (BodyVal.obj b) =>
      parseBranches
        (if b.classifications.isSome then (some b, acc.2)
         else if b.extracted_text.isSome then (acc.1, some b)
         else acc) rest
    | Except.ok BodyVal.nonDict =>
      Except.error "TypeError: argument of type is not iterable"

/-- The body of `handler`'s `try` block: any `Except.error` corresponds to a
Python exception reaching the `except` clause. -/
def aggregateCore (event : EventVal) : Except String Response :=
  match getParallelResults event with
  | Except.error e => Except.error e
  | Except.ok parallel_results =>
    if parallel_results.length = 2 then
      match parseBranches (none, none) parallel_results with
      | Except.error e => Except.error e
      | Except.ok (some classification_results, some text_results) =>
        Except.ok (successResponse classification_results text_results)
      | Except.ok _ =>
        Except.ok (resp400 "Could not parse classification and text extraction results")
    else
      Except.ok (resp400 ("Expected 2 parallel results, got " ++
        toString parallel_results.length))

/-- Model of `aggregate.handler`: the `try` body with every internal failure
mapped to the 500 response by the `except` clause. -/
def handler (event : EventVal) : Response :=
  match aggregateCore event with
  | Except.ok r => r
  | Except.error e => resp500 e

/-- Declaration position of a pattern name in the `VEHICLE_PATTERNS` table
(4 for names outside the table). -/
def patternIndex (vehicle_type : String) : Nat :=
  match vehicle_type with
  | "postal_delivery" => 0
  | "commercial_delivery" => 1
  | "shipping_container" => 2
  | "emergency_vehicle" => 3
  | _ => 4

/-- Ranking order: confidence non-increasing, with equal-confidence entries
in pattern-declaration order. -/
def RankOrdered (a b : Inference) : Prop :=
  b.confidence ≤ a.confidence ∧
    (a.confidence = b.confidence →
      patternIndex a.vehicle_type < patternIndex b.vehicle_type)

/-- Strict declaration order on inferences. -/
def DeclBefore (a b : Inference) : Prop :=
  patternIndex a.vehicle_type < patternIndex b.vehicle_type

theorem buildInference_vehicle_type (pr : String × PatternConfig)
    (classifications : List Classification) (extracted_text : String)
    (text_blocks : List TextBlock) (structured_identifiers : List String) :
    (buildInference pr classifications extracted_text text_blocks
      structured_identifiers).vehicle_type = pr.1 := rfl

theorem buildInference_confidence (pr : String × PatternConfig)
    (classifications : List Classification) (extracted_text : String)
    (text_blocks : List TextBlock) (structured_identifiers : List String) :
    (buildInference pr classifications extracted_text text_blocks
      structured_identifiers).confidence =
      min (calculate_pattern_match_score pr.2 classifications extracted_text
        text_blocks * pr.2.confidence_base) (19/20) := rfl

theorem sortByConfDesc_cons (x : Inference) (l : List Inference) :
    sortByConfDesc (x :: l) = insertByConfDesc x (sortByConfDesc l) := rfl

theorem mem_insertByConfDesc {a x : Inference} {l : List Inference} :
    a ∈ insertByConfDesc x l ↔ a = x ∨ a ∈ l := by
  induction l with
  | nil => simp [insertByConfDesc]
  | cons y ys ih =>
    by_cases hc : x.confidence < y.confidence
    · simp only [insertByConfDesc, if_pos hc, List.mem_cons, ih]
      tauto
    · simp only [insertByConfDesc, if_neg hc, List.mem_cons]

theorem mem_sortByConfDesc {a : Inference} {l : List Inference} :
    a ∈ sortByConfDesc l ↔ a ∈ l := by
  induction l with
  | nil => simp [sortByConfDesc]
  | cons x xs ih =>
    rw [sortByConfDesc_cons, mem_insertByConfDesc, ih, List.mem_cons]

theorem pairwise_insertByConfDesc {x : Inference} {l : List Inference}
    (hl : l.Pairwise RankOrdered) (hx : ∀ y ∈ l, DeclBefore x y) :
    (insertByConfDesc x l).Pairwise RankOrdered := by
  induction l with
  | nil => simp [insertByConfDesc]
  | cons y ys ih =>
    rcases List.pairwise_cons.mp hl with ⟨hy, hys⟩
    by_cases hc : x.confidence < y.confidence
    · rw [insertByConfDesc, if_pos hc]
      refine List.pairwise_cons.mpr ⟨?_, ih hys (fun z hz => hx z (by simp [hz]))⟩
      intro z hz
      rcases mem_insertByConfDesc.mp hz with rfl | hz
      · exact ⟨le_of_lt hc, fun heq => absurd (heq ▸ hc) (lt_irrefl _)⟩
      · exact hy z hz
    · rw [insertByConfDesc, if_neg hc]
      refine List.pairwise_cons.mpr ⟨?_, hl⟩
      intro z hz
      rcases List.mem_cons.mp hz with rfl | hz
      · exact ⟨not_lt.mp hc, fun _ => hx z (by simp)⟩
      · exact ⟨le_trans (hy z hz).1 (not_lt.mp hc), fun _ => hx z (by simp [hz])⟩

theorem pairwise_sortByConfDesc {l : List Inference} (hl : l.Pairwise DeclBefore) :
    (sortByConfDesc l).Pairwise RankOrdered := by
  induction l with
  | nil => simp [sortByConfDesc]
  | cons x xs ih =>
    rcases List.pairwise_cons.mp hl with ⟨hx, hxs⟩
    rw [sortByConfDesc_cons]
    exact pairwise_insertByConfDesc (ih hxs)
      (fun y hy => hx y (mem_sortByConfDesc.mp hy))

theorem toNat_ofNat_valid (n : Nat) (h : n < 55296) : (Char.ofNat n).toNat = n := by
  unfold Char.ofNat
  rw [dif_pos (Or.inl h)]
  rfl

theorem char_le_iff (a b : Char) : a ≤ b ↔ a.toNat ≤ b.toNat := by
  rw [Char.le_def]
  exact ⟨fun h => h, fun h => h⟩

/-- Lower-casing never produces an `[A-Z]` character (Python `str.lower()`
maps `A`–`Z` into `a`–`z` and only changes cased characters). -/
theorem isUpperAZ_toLowerCh (c : Char) : isUpperAZ (toLowerCh c) = false := by
  unfold toLowerCh
  by_cases h : isUpperAZ c = true
  · rw [if_pos h]
    simp only [isUpperAZ, Bool.and_eq_true, decide_eq_true_eq] at h
    obtain ⟨h1, h2⟩ := h
    rw [char_le_iff] at h1 h2
    have hA : ('A' : Char).toNat = 65 := rfl
    have hZ : ('Z' : Char).toNat = 90 := rfl
    rw [hA] at h1; rw [hZ] at h2
    have hv : (Char.ofNat (c.toNat + 32)).toNat = c.toNat + 32 :=
      toNat_ofNat_valid _ (by omega)
    simp only [isUpperAZ, Bool.and_eq_false_iff]
    right
    simp only [decide_eq_false_iff_not]
    rw [char_le_iff, hv, hZ]
    omega
  · rw [if_neg h]
    exact Bool.not_eq_true _ ▸ h

/-- Every character of a lower-cased text fails `[A-Z]`. -/
theorem lowerData_no_upper (text : String) :
    ∀ c ∈ lowerData text, isUpperAZ c = false := by
  intro c hc
  simp only [lowerData, List.mem_map] at hc
  obtain ⟨c', _, rfl⟩ := hc
  exact isUpperAZ_toLowerCh c'

/-- The matcher fails immediately on a leading `[A-Z]{4}` token when the
input has no `[A-Z]` characters. -/
theorem matchAtF_no_upper (fuel : Nat) (prev : Option Char) (ts' : List RTok)
    (s : List Char) (h : ∀ c ∈ s, isUpperAZ c = false) :
    matchAtF fuel prev (RTok.cls isUpperAZ 4 4 :: ts') s = none := by
  cases fuel with
  | zero => rfl
  | succ fuel =>
    cases s with
    | nil => simp [matchAtF]
    | cons c s' => simp [matchAtF, h c (by simp)]

theorem matchAt_container_no_upper (prev : Option Char) (s : List Char)
    (h : ∀ c ∈ s, isUpperAZ c = false) :
    matchAt prev containerScorerToks s = none :=
  matchAtF_no_upper _ prev _ s h

/-- The scorer's container-ID regex can match no input without `[A-Z]`
characters. -/
theorem reSearchAux_container_no_upper (s : List Char) :
    ∀ (prev : Option Char), (∀ c ∈ s, isUpperAZ c = false) →
      reSearchAux containerScorerToks prev s = false := by
  induction s with
  | nil =>
    intro prev h
    rw [reSearchAux, matchAt_container_no_upper prev [] h]
    rfl
  | cons c rest ih =>
    intro prev h
    rw [reSearchAux, matchAt_container_no_upper prev (c :: rest) h]
    simp only [Option.isSome_none, Bool.false_or]
    exact ih (some c) (fun x hx => h x (by simp [hx]))

/-- Unfolding of the ranker into filter, map and stable sort. -/
theorem infer_vehicle_context_eq (classifications : List Classification)
    (text_analysis : TextAnalysis) :
    infer_vehicle_context classifications text_analysis =
      sortByConfDesc
        ((VEHICLE_PATTERNS.filter fun pr =>
            decide ((3 : ℚ)/10 <
              calculate_pattern_match_score pr.2 classifications
                text_analysis.extracted_text text_analysis.text_blocks)).map fun pr =>
          buildInference pr classifications text_analysis.extracted_text
            text_analysis.text_blocks
            (extract_structured_identifiers text_analysis.text_blocks
              text_analysis.extracted_text)) := rfl

/-- The pattern table is strictly ordered by declaration index. -/
theorem vehicle_patterns_decl_ordered :
    VEHICLE_PATTERNS.Pairwise fun pr pr' =>
      patternIndex pr.1 < patternIndex pr'.1 := by
  simp [VEHICLE_PATTERNS, List.pairwise_cons, patternIndex]

/-- The pattern names are distinct. -/
theorem vehicle_patterns_names_nodup : (VEHICLE_PATTERNS.map Prod.fst).Nodup := by
  simp [VEHICLE_PATTERNS, List.Nodup, List.pairwise_cons]

/-- C1.  For every list of classifications and every text and text-blocks
input, `infer_vehicle_context` returns a list sorted by confidence
non-increasing, and equal-confidence inferences appear in the fixed
four-pattern declaration order. -/
theorem inference_ranker_sorted_and_stable (classifications : List Classification)
    (text_analysis : TextAnalysis) :
    (infer_vehicle_context classifications text_analysis).Pairwise
      fun a b => b.confidence ≤ a.confidence ∧
        (a.confidence = b.confidence →
          patternIndex a.vehicle_type < patternIndex b.vehicle_type) := by
  rw [infer_vehicle_context_eq]
  apply pairwise_sortByConfDesc
  refine List.Pairwise.map _ ?_ (vehicle_patterns_decl_ordered.filter _)
  intro a b h
  show DeclBefore _ _
  unfold DeclBefore
  rw [buildInference_vehicle_type, buildInference_vehicle_type]
  exact h

/-- Membership in the ranker output characterized by the score gate. -/
theorem mem_infer_vehicle_context {inf : Inference}
    (classifications : List Classification) (text_analysis : TextAnalysis) :
    inf ∈ infer_vehicle_context classifications text_analysis ↔
      ∃ pr, pr ∈ VEHICLE_PATTERNS ∧
        (3 : ℚ)/10 < calculate_pattern_match_score pr.2 classifications
          text_analysis.extracted_text text_analysis.text_blocks ∧
        inf = buildInference pr classifications text_analysis.extracted_text
          text_analysis.text_blocks
          (extract_structured_identifiers text_analysis.text_blocks
            text_analysis.extracted_text) := by
  rw [infer_vehicle_context_eq, mem_sortByConfDesc, List.mem_map]
  constructor
  · rintro ⟨pr, hpr, rfl⟩
    rcases List.mem_filter.mp hpr with ⟨hmem, hq⟩
    exact ⟨pr, hmem, of_decide_eq_true hq, rfl⟩
  · rintro ⟨pr, hmem, hq, rfl⟩
    exact ⟨pr, List.mem_filter.mpr ⟨hmem, decide_eq_true hq⟩, rfl⟩

/-- C3.  A pattern produces an inference iff its match score is strictly
above the 0.3 gate; the inference's confidence is exactly
`min(score * confidence_base, 0.95)`; and no inference exceeds 0.95. -/
theorem inference_gate_and_confidence_cap (pr : String × PatternConfig)
    (hpr : pr ∈ VEHICLE_PATTERNS) (classifications : List Classification)
    (text_analysis : TextAnalysis) :
    ((∃ inf ∈ infer_vehicle_context classifications text_analysis,
        inf.vehicle_type = pr.1) ↔
      (3 : ℚ)/10 < calculate_pattern_match_score pr.2 classifications
        text_analysis.extracted_text text_analysis.text_blocks) ∧
    (∀ inf ∈ infer_vehicle_context classifications text_analysis,
      inf.vehicle_type = pr.1 →
        inf.confidence = min (calculate_pattern_match_score pr.2 classifications
          text_analysis.extracted_text text_analysis.text_blocks *
            pr.2.confidence_base) (19/20)) ∧
    (∀ inf ∈ infer_vehicle_context classifications text_analysis,
      inf.confidence ≤ 19/20) := by
  have huniq : ∀ pr', pr' ∈ VEHICLE_PATTERNS → pr'.1 = pr.1 → pr' = pr := by
    intro pr' h1 h2
    exact List.inj_on_of_nodup_map vehicle_patterns_names_nodup h1 hpr h2
  refine ⟨⟨?_, ?_⟩, ?_, ?_⟩
  · rintro ⟨inf, hinf, hvt⟩
    rcases (mem_infer_vehicle_context _ _).mp hinf with ⟨pr', hmem, hq, rfl⟩
    rw [buildInference_vehicle_type] at hvt
    rwa [huniq pr' hmem hvt] at hq
  · intro hq
    exact ⟨_, (mem_infer_vehicle_context _ _).mpr ⟨pr, hpr, hq, rfl⟩,
      buildInference_vehicle_type _ _ _ _ _⟩
  · intro inf hinf hvt
    rcases (mem_infer_vehicle_context _ _).mp hinf with ⟨pr', hmem, hq, rfl⟩
    rw [buildInference_vehicle_type] at hvt
    rw [huniq pr' hmem hvt]
    exact buildInference_confidence _ _ _ _ _
  · intro inf hinf
    rcases (mem_infer_vehicle_context _ _).mp hinf with ⟨pr', hmem, hq, rfl⟩
    rw [buildInference_confidence]
    exact min_le_right _ _

/-- C2.  The pattern score is always in [0, 1] when classification
confidences are, and is exactly 0 when no classification's lower-cased
subcategory is among the pattern's visual requirements. -/
theorem pattern_match_score_bounds (pattern_config : PatternConfig)
    (classifications : List Classification) (extracted_text : String)
    (text_blocks : List TextBlock)
    (hconf : ∀ c ∈ classifications, 0 ≤ c.confidence ∧ c.confidence ≤ 1) :
    0 ≤ calculate_pattern_match_score pattern_config classifications
        extracted_text text_blocks ∧
    calculate_pattern_match_score pattern_config classifications
        extracted_text text_blocks ≤ 1 ∧
    ((∀ c ∈ classifications,
        strLower c.subcategory ∉ pattern_config.visual_requirements) →
      calculate_pattern_match_score pattern_config classifications
        extracted_text text_blocks = 0) := by
  refine ⟨?_, ?_, ?_⟩
  · simp only [calculate_pattern_match_score]
    split
    · exact le_refl 0
    · refine le_min ?_ (by norm_num)
      apply div_nonneg
      · have h1 : 0 ≤ ((classifications.filter fun c =>
            pattern_config.visual_requirements.contains
              (strLower c.subcategory)).map fun c =>
              c.confidence * (2/5)).sum := by
          apply List.sum_nonneg
          intro x hx
          rcases List.mem_map.mp hx with ⟨c, hc, rfl⟩
          exact mul_nonneg (hconf c (List.mem_of_mem_filter hc)).1 (by norm_num)
        have h2 : 0 ≤ (3/10 : ℚ) *
            (((pattern_config.text_patterns.filter fun p =>
              reSearch p.2 (lowerData extracted_text)).length : ℚ)) := by
          positivity
        have h3 : 0 ≤ (if 1 < (pattern_config.text_patterns.filter fun p =>
            reSearch p.2 (lowerData extracted_text)).length
            then (1/10 : ℚ) else 0) := by
          split <;> norm_num
        linarith
      · exact Nat.cast_nonneg _
  · simp only [calculate_pattern_match_score]
    split
    · norm_num
    · exact min_le_right _ _
  · intro hno
    have h0 : (classifications.filter fun c =>
        pattern_config.visual_requirements.contains (strLower c.subcategory)) = [] := by
      apply List.filter_eq_nil_iff.mpr
      intro c hc hcontains
      exact hno c hc (List.elem_iff.mp hcontains)
    simp only [calculate_pattern_match_score]
    rw [h0]
    simp


/-- Concrete fixture: a truck classification with confidence 0.9. -/
def truckClassification : Classification :=
  { category := "vehicle", subcategory := "truck", confidence := 9/10 }

/-- Concrete fixture: OCR output reading "maersk". -/
def maerskTA : TextAnalysis := { extracted_text := "maersk", text_blocks := [] }

theorem pattern_match_score_bounds_witness :
    (∀ c ∈ [truckClassification], 0 ≤ c.confidence ∧ c.confidence ≤ 1) ∧
    (0 ≤ calculate_pattern_match_score shippingContainerConfig
        [truckClassification] "maersk" [] ∧
     calculate_pattern_match_score shippingContainerConfig
        [truckClassification] "maersk" [] ≤ 1 ∧
     ((∀ c ∈ [truckClassification],
         strLower c.subcategory ∉ shippingContainerConfig.visual_requirements) →
       calculate_pattern_match_score shippingContainerConfig
         [truckClassification] "maersk" [] = 0)) :=
  ⟨by norm_num [truckClassification],
   pattern_match_score_bounds _ _ _ _ (by norm_num [truckClassification])⟩

theorem shipping_score_maersk :
    calculate_pattern_match_score shippingContainerConfig [truckClassification]
      "maersk" [] = 33/100 := by
  simp +decide [calculate_pattern_match_score, shippingContainerConfig,
    truckClassification, strLower, lowerData]
  norm_num

theorem inference_gate_and_confidence_cap_witness :
    ("shipping_container", shippingContainerConfig) ∈ VEHICLE_PATTERNS ∧
    (∃ inf ∈ infer_vehicle_context [truckClassification] maerskTA,
      inf.vehicle_type = "shipping_container") := by
  have hmem : ("shipping_container", shippingContainerConfig) ∈ VEHICLE_PATTERNS := by
    simp [VEHICLE_PATTERNS]
  refine ⟨hmem, ?_⟩
  apply (inference_gate_and_confidence_cap _ hmem [truckClassification] maerskTA).1.mpr
  show (3 : ℚ)/10 < calculate_pattern_match_score shippingContainerConfig
    [truckClassification] maerskTA.extracted_text maerskTA.text_blocks
  rw [show maerskTA.extracted_text = "maersk" from rfl,
    show maerskTA.text_blocks = ([] : List TextBlock) from rfl,
    shipping_score_maersk]
  norm_num

/-- C4 (code bug).  The scorer searches its patterns in the lower-cased text,
so the shipping-container regex `[A-Z]{4}\s?\d{6}\s?\d` — which requires
four upper-case letters — can never count as a text match for any input,
although it does match texts such as "MSCU7654321" when evaluated on the
original (or case-insensitively, as the spec states).  On
text "MSCU7654321" with a truck classification the score is 33/100 (one text
match, the literal `msc`); under the spec's case-insensitive reading the
container regex would also match and add its 0.3. -/
theorem container_text_pattern_never_counted :
    (∀ text : String, reSearch containerScorerToks (lowerData text) = false) ∧
    reSearch containerScorerToks ("MSCU7654321".data) = true ∧
    calculate_pattern_match_score shippingContainerConfig [truckClassification]
      "MSCU7654321" [] = 33/100 := by
  refine ⟨?_, by decide, ?_⟩
  · intro text
    exact reSearchAux_container_no_upper _ none (lowerData_no_upper text)
  · simp +decide [calculate_pattern_match_score, shippingContainerConfig,
      truckClassification, strLower, lowerData]
    norm_num


/-- Concrete fixture: the entity produced by the fallback path on OCR text
"ABC 1234" (both plate regex families match the same span, so the identifier
appears twice). -/
def dupPlateEntity : Entity :=
  { type := "commercial_vehicle:van", operator := none,
    identifiers := ["license_plate:unknown:ABC1234", "license_plate:unknown:ABC1234"],
    confidence := 9/10 }

/-- Concrete fixture: OCR output reading "ABC 1234". -/
def abcTA : TextAnalysis := { extracted_text := "ABC 1234", text_blocks := [] }

/-- C5 (counterexample).  `determine_entities` attaches the extractor's
identifier list verbatim: on text "ABC 1234" the final entity carries the
same license-plate identifier twice, so identifiers of a final entity are
not deduplicated. -/
theorem entity_identifiers_not_deduplicated :
    determine_entities [truckClassification] abcTA [] = [dupPlateEntity] ∧
    ¬ (∀ e ∈ determine_entities [truckClassification] abcTA [],
        e.identifiers.Pairwise (fun a b => a ≠ b)) := by
  have h : determine_entities [truckClassification] abcTA [] = [dupPlateEntity] := rfl
  refine ⟨h, ?_⟩
  rw [h]
  intro hall
  have hdup := hall dupPlateEntity (List.mem_singleton_self _)
  rcases List.pairwise_cons.mp hdup with ⟨hne, _⟩
  exact hne _ (List.mem_singleton_self _) rfl

/-- C5 (amended).  Identifier lists are passed through to final entities
verbatim (the qualifying inference's own filtered list, or the extractor's
full list on the fallback and unknown paths); no deduplication is applied. -/
theorem entity_identifiers_passthrough (classifications : List Classification)
    (text_analysis : TextAnalysis) (contextual_inferences : List Inference) :
    ∀ e ∈ determine_entities classifications text_analysis contextual_inferences,
      (∃ inf ∈ contextual_inferences, (3 : ℚ)/10 < inf.confidence ∧
        e.identifiers = inf.structured_identifiers) ∨
      e.identifiers = extract_structured_identifiers text_analysis.text_blocks
        text_analysis.extracted_text := by
  intro e he
  simp only [determine_entities] at he
  split at he
  · split at he
    · rcases List.mem_singleton.mp he with rfl
      right
      rfl
    · simp only [classificationFallback] at he
      split at he
      · exact absurd he (by simp)
      · rcases List.mem_singleton.mp he with rfl
        right
        rfl
  · rcases List.mem_filterMap.mp he with ⟨inf, hinf, hf⟩
    by_cases hc : (3 : ℚ)/10 < inf.confidence
    · rw [inferenceEntity, if_pos hc] at hf
      rcases Option.some.inj hf with rfl
      exact Or.inl ⟨inf, hinf, hc, rfl⟩
    · rw [inferenceEntity, if_neg hc] at hf
      exact absurd hf (by simp)

theorem entity_identifiers_passthrough_witness :
    dupPlateEntity ∈ determine_entities [truckClassification] abcTA [] ∧
    ((∃ inf ∈ ([] : List Inference), (3 : ℚ)/10 < inf.confidence ∧
        dupPlateEntity.identifiers = inf.structured_identifiers) ∨
      dupPlateEntity.identifiers =
        extract_structured_identifiers abcTA.text_blocks abcTA.extracted_text) := by
  have hmem : dupPlateEntity ∈ determine_entities [truckClassification] abcTA [] := by
    rw [show determine_entities [truckClassification] abcTA [] = [dupPlateEntity]
      from rfl]
    exact List.mem_singleton_self _
  exact ⟨hmem, entity_identifiers_passthrough _ _ _ dupPlateEntity hmem⟩

/-- C6.  The entity resolver never returns an empty list, and when no
inference qualifies (confidence above 0.3) and there are no classifications
it returns exactly the synthetic unknown entity with the full
structured-identifier list and confidence 0. -/
theorem entity_resolver_never_empty (classifications : List Classification)
    (text_analysis : TextAnalysis) (contextual_inferences : List Inference) :
    determine_entities classifications text_analysis contextual_inferences ≠ [] ∧
    ((∀ inf ∈ contextual_inferences, ¬((3 : ℚ)/10 < inf.confidence)) →
      classifications = [] →
      determine_entities classifications text_analysis contextual_inferences =
        [{ type := "unknown", operator := none,
           identifiers := extract_structured_identifiers text_analysis.text_blocks
             text_analysis.extracted_text,
           confidence := 0 }]) := by
  constructor
  · simp only [determine_entities]
    split
    · split
      · simp
      · next h =>
        intro hnil
        exact h (by simp [hnil])
    · next h =>
      intro hnil
      exact h (by simp [hnil])
  · intro hno hcls
    subst hcls
    have hY : contextual_inferences.filterMap
        (inferenceEntity text_analysis.extracted_text) = [] := by
      apply List.filterMap_eq_nil_iff.mpr
      intro inf hinf
      rw [inferenceEntity, if_neg (hno inf hinf)]
    simp [determine_entities, hY, classificationFallback]

/-- Concrete fixture: an inference below the 0.3 entity gate. -/
def lowInference : Inference :=
  { vehicle_type := "postal_delivery", confidence := 1/5, evidence := [],
    structured_identifiers := [], description := "" }

theorem entity_resolver_never_empty_witness :
    (∀ inf ∈ [lowInference], ¬((3 : ℚ)/10 < inf.confidence)) ∧
    determine_entities [] {} [lowInference] =
      [{ type := "unknown", operator := none,
         identifiers := extract_structured_identifiers
           (TextAnalysis.text_blocks {}) (TextAnalysis.extracted_text {}),
         confidence := 0 }] := by
  have hno : ∀ inf ∈ [lowInference], ¬((3 : ℚ)/10 < inf.confidence) := by
    intro inf hinf
    rcases List.mem_singleton.mp hinf with rfl
    norm_num [lowInference]
  exact ⟨hno, (entity_resolver_never_empty [] {} [lowInference]).2 hno rfl⟩


/-- ISO-6346 shape check for an extracted container value: exactly 4 letters
followed by 7 digits. -/
def isoContainerShape (v : String) : Bool :=
  v.data.length = 11 && (v.data.take 4).all isUpperAZ &&
    (v.data.drop 4).all isDigitCh

/-- C7 (counterexample).  The extractor's `\s?` also matches a tab, but only
spaces are removed from the match (`replace(' ', '')`), so on input
"ABCD\t1234567" the returned value keeps the internal tab and is not an
ISO-6346-shaped token. -/
theorem container_id_tab_counterexample :
    extract_container_ids "ABCD\t1234567" =
      ["container_id:" ++ "ABCD\t1234567"] ∧
    isoContainerShape "ABCD\t1234567" = false := by
  exact ⟨by decide, by decide⟩

/-- C7 (amended).  Every extracted container id is `container_id:` followed
by a match of `\b[A-Z]{4}\s?\d{6}\s?\d\b` with its space characters (only)
removed, and its letter head is never one of the carrier codes USPS, FEDX,
UPSX. -/
theorem container_id_extraction_shape (extracted_text : String) :
    ∀ s ∈ extract_container_ids extracted_text,
      ∃ m, ToksMatch containerIdToks m ∧
        s = "container_id:" ++ String.mk (m.filter (fun c => c ≠ ' ')) ∧
        ∀ op ∈ carrierCodes,
          op.data.isPrefixOf (m.filter (fun c => c ≠ ' ')) = false := by
  intro s hs
  simp only [extract_container_ids] at hs
  rcases List.mem_filterMap.mp hs with ⟨m, hm, hf⟩
  by_cases hb : carrierCodes.any
      (fun op => op.data.isPrefixOf (m.filter (fun c => c ≠ ' '))) = true
  · rw [if_pos hb] at hf
    exact absurd hf (by simp)
  · rw [if_neg hb] at hf
    refine ⟨m, toksMatch_of_mem_findAll _ _ _ hm, (Option.some.inj hf).symm, ?_⟩
    intro op hop
    rw [Bool.not_eq_true] at hb
    have hall := List.any_eq_false.mp hb op hop
    rwa [Bool.not_eq_true] at hall

theorem container_id_extraction_shape_witness :
    ("container_id:MSCU7654321" ∈ extract_container_ids "MSCU7654321") ∧
    (∃ m, ToksMatch containerIdToks m ∧
      "container_id:MSCU7654321" =
        "container_id:" ++ String.mk (m.filter (fun c => c ≠ ' ')) ∧
      ∀ op ∈ carrierCodes,
        op.data.isPrefixOf (m.filter (fun c => c ≠ ' ')) = false) :=
  ⟨by decide, container_id_extraction_shape "MSCU7654321" "container_id:MSCU7654321" (by decide)⟩


/-- Concrete fixture: classification branch result with one truck score. -/
def truckScores : BranchBody := { confidence_scores := [("truck", 92/100)] }

/-- Concrete fixture: text branch result with text confidence 0.95. -/
def textConf95 : BranchBody :=
  { processing_metadata := some { text_confidence := some (95/100) } }

/-- C8.  Overall confidence is the 0.7/0.3 weighted combination of average
classification confidence and text confidence, degrading to
`text_confidence * 0.5` without confidence scores; on scores
`{truck: 0.92}` and text confidence `0.95` it equals `0.929`. -/
theorem overall_confidence_formula (classification_results text_results : BranchBody) :
    (classification_results.confidence_scores ≠ [] →
      calculate_overall_confidence classification_results text_results =
        ((classification_results.confidence_scores.map Prod.snd).sum /
          (classification_results.confidence_scores.length : ℚ)) * (7/10) +
          ((text_results.processing_metadata.getD {}).text_confidence).getD 0 *
            (3/10)) ∧
    (classification_results.confidence_scores = [] →
      calculate_overall_confidence classification_results text_results =
        ((text_results.processing_metadata.getD {}).text_confidence).getD 0 *
          (1/2)) ∧
    calculate_overall_confidence truckScores textConf95 = 929/1000 := by
  refine ⟨?_, ?_, ?_⟩
  · intro h
    simp only [calculate_overall_confidence]
    split
    · rfl
    · next hemp => exact absurd (List.isEmpty_iff.mp (not_not.mp hemp)) h
  · intro h
    simp only [calculate_overall_confidence]
    split
    · next hemp => exact absurd (by rw [h]; rfl) hemp
    · rfl
  · norm_num [calculate_overall_confidence, truckScores, textConf95]

theorem overall_confidence_formula_witness :
    truckScores.confidence_scores ≠ [] ∧
    calculate_overall_confidence truckScores textConf95 =
      ((truckScores.confidence_scores.map Prod.snd).sum /
        (truckScores.confidence_scores.length : ℚ)) * (7/10) +
        ((textConf95.processing_metadata.getD {}).text_confidence).getD 0 *
          (3/10) := by
  have h : truckScores.confidence_scores ≠ [] := by simp [truckScores]
  exact ⟨h, (overall_confidence_formula truckScores textConf95).1 h⟩

/-- Concrete fixture: a body carrying only the `classifications` key. -/
def clsOnlyBody : BranchBody := { classifications := some [] }

/-- Concrete fixture: a body carrying both distinguishing keys. -/
def bothKeysBody : BranchBody :=
  { classifications := some [], extracted_text := some "" }

/-- Concrete fixture: an event whose two results both contain
`classifications`, the second one also `extracted_text`. -/
def ambiguousEvent : EventVal :=
  EventVal.list [ParallelResult.obj (some (BodyVal.obj clsOnlyBody)),
                 ParallelResult.obj (some (BodyVal.obj bothKeysBody))]

/-- C9 (counterexample).  Both branch results are present and each contains
its distinguishing key, yet the handler returns 400: branch detection checks
`classifications` first, so a text result that also carries
`classifications` is consumed as a classification result. -/
theorem aggregate_branch_detection_counterexample :
    (handler ambiguousEvent).statusCode = 400 ∧
    clsOnlyBody.classifications.isSome = true ∧
    bothKeysBody.extracted_text.isSome = true :=
  ⟨rfl, rfl, rfl⟩

/-- C9 (amended).  For a two-result event of dict bodies, aggregation fails
with a 400 validation response exactly unless one result's body contains
`classifications` and the other's contains `extracted_text` but not
`classifications` (branch identity is detected by key, with
`classifications` taking priority). -/
theorem aggregate_validation_iff (b1 b2 : BranchBody) :
    (handler (EventVal.list [ParallelResult.obj (some (BodyVal.obj b1)),
        ParallelResult.obj (some (BodyVal.obj b2))])).statusCode = 400 ↔
      ¬((b1.classifications.isSome = true ∧ b2.extracted_text.isSome = true ∧
          b2.classifications.isSome = false) ∨
        (b2.classifications.isSome = true ∧ b1.extracted_text.isSome = true ∧
          b1.classifications.isSome = false)) := by
  cases hc1 : b1.classifications.isSome <;> cases hc2 : b2.classifications.isSome <;>
    cases he1 : b1.extracted_text.isSome <;> cases he2 : b2.extracted_text.isSome <;>
    simp [handler, aggregateCore, getParallelResults, parseBranches, getResultBody,
      resp400, successResponse, hc1, hc2, he1, he2]

/-- Status of every `Except.ok` result of the `try` body: 200 or 400. -/
theorem aggregateCore_ok_status (event : EventVal) (r : Response)
    (h : aggregateCore event = Except.ok r) :
    r.statusCode = 200 ∨ r.statusCode = 400 := by
  unfold aggregateCore at h
  cases hev : getParallelResults event with
  | error e =>
    simp only [hev] at h
    exact Except.noConfusion h
  | ok prs =>
    simp only [hev] at h
    by_cases hlen : prs.length = 2
    · rw [if_pos hlen] at h
      cases hpb : parseBranches (none, none) prs with
      | error e =>
        simp only [hpb] at h
        exact Except.noConfusion h
      | ok pr =>
        obtain ⟨copt, topt⟩ := pr
        cases copt <;> cases topt <;> simp only [hpb] at h <;>
          rcases Except.ok.inj h with rfl
        · exact Or.inr rfl
        · exact Or.inr rfl
        · exact Or.inr rfl
        · exact Or.inl rfl
    · rw [if_neg hlen] at h
      rcases Except.ok.inj h with rfl
      exact Or.inr rfl

/-- C10.  The handler always produces a response with status 200, 400 or
500, and every internal failure of the `try` body is caught and reported as
a 500 response with `analysis_complete` false. -/
theorem handler_total_and_catches (event : EventVal) :
    ((handler event).statusCode = 200 ∨ (handler event).statusCode = 400 ∨
      (handler event).statusCode = 500) ∧
    (∀ e, aggregateCore event = Except.error e →
      (handler event).statusCode = 500 ∧
      (handler event).body.analysis_complete = some false ∧
      (handler event).body.error = some ("Result aggregation failed: " ++ e)) := by
  constructor
  · cases hag : aggregateCore event with
    | error e => simp [handler, hag, resp500]
    | ok r =>
      rcases aggregateCore_ok_status event r hag with h | h <;>
        simp [handler, hag, h]
  · intro e he
    simp [handler, he, resp500]

theorem handler_total_and_catches_witness :
    aggregateCore EventVal.other =
      Except.error "AttributeError: object has no attribute get" ∧
    (handler EventVal.other).statusCode = 500 ∧
    (handler EventVal.other).body.analysis_complete = some false := by
  have h : aggregateCore EventVal.other =
      Except.error "AttributeError: object has no attribute get" := rfl
  have hw := (handler_total_and_catches EventVal.other).2 _ h
  exact ⟨h, hw.1, hw.2.1⟩

end ImageDiscerner
